import Mathlib

/-!
Shallow embedding of the Hello Fairy lamp BLE session
(custom_components/hellofairy/hello_fairy.py) and of the frame constants it
writes.  The radio collaborator (bleak) is modelled by an environment that
fixes the outcome of each radio-level primitive used during one call; the
primitives return in an `Except RadioErr` error monad, so "an exception
propagates to the caller" is visible as an `.error` result.
-/

namespace HelloFairy

/-- Connection state, mirroring `class Conn(enum.Enum)` in hello_fairy.py. -/
inductive Conn where
  | DISCONNECTED
  | UNPAIRED
  | PAIRING
  | PAIRED
deriving DecidableEq, BEq, Repr

/-- The BLE client handle (bleak BleakClient); only its liveness matters to the
session logic (`self._client.is_connected`). -/
structure Client where
  is_connected : Bool
deriving DecidableEq, BEq, Repr

/-- Outcome the radio environment assigns to one radio-level operation. -/
inductive RadioOutcome where
  | ok
  | timeout
  | bleakError
deriving DecidableEq, BEq, Repr

/-- Exceptions a radio-level call can raise: asyncio.TimeoutError or
bleak.BleakError. -/
inductive RadioErr where
  | timeout
  | bleak
deriving DecidableEq, BEq, Repr

/-- Radio environment of one call: the outcome of establish_connection, of
write_gatt_char, and of the client-level disconnect during that call. -/
structure Env where
  establish : RadioOutcome
  write : RadioOutcome
  clientDisconnect : RadioOutcome
deriving DecidableEq, BEq, Repr

/-- Turn a radio outcome into the result of the corresponding awaited call. -/
def RadioOutcome.toExcept : RadioOutcome → Except RadioErr Unit
  | .ok => .ok ()
  | .timeout => .error .timeout
  | .bleakError => .error .bleak

/-- Model of bleak_retry_connector.establish_connection: on success it returns
a freshly connected client.  The retry/backoff behaviour selected by
`max_attempts` is internal to the collaborator; the session only observes
success or an exception. -/
def establish_connection (env : Env) (max_attempts : Nat) : Except RadioErr Client :=
  match max_attempts, env.establish with
  | _, .ok => .ok ⟨true⟩
  | _, .timeout => .error .timeout
  | _, .bleakError => .error .bleak

/-- The mutable fields of `Lamp` that the session logic reads or writes. -/
structure LampState where
  client : Option Client
  is_on : Bool
  rgb : Int × Int × Int
  brightness : Int
  conn : Conn
deriving DecidableEq, BEq, Repr

/-- Model of `Lamp.__init__`: no client, off, rgb (0,0,0), brightness 0,
Conn.DISCONNECTED. -/
def initLamp : LampState :=
  { client := none
    is_on := false
    rgb := (0, 0, 0)
    brightness := 0
    conn := Conn.DISCONNECTED }

/-- Model of `Lamp.disconnect`: no-op when `self._client is None`; otherwise
awaits the client-level disconnect, catches asyncio.TimeoutError and
BleakError (logged only), then unconditionally sets Conn.DISCONNECTED.  The
client field itself is never cleared by the source. -/
def disconnect (env : Env) (s : LampState) : Except RadioErr LampState :=
  match s.client with
  | none => .ok s
  | some _ =>
    match env.clientDisconnect.toExcept with
    | .ok _ => .ok { s with conn := Conn.DISCONNECTED }
    | .error _ => .ok { s with conn := Conn.DISCONNECTED }

/-- The assignments `disconnect` makes to `self._conn` (used to record the
connection-state trace of a `connect` call that invokes it). -/
def disconnectAssigns (s : LampState) : List Conn :=
  match s.client with
  | none => []
  | some _ => [Conn.DISCONNECTED]

/-- Model of `Lamp.pair`: guard (not UNPAIRED, or no client) logs and returns;
the body is a placeholder `pass` (the pairing write is commented out), with
both exception classes caught.  It never changes state and never raises. -/
def pair (s : LampState) : Except RadioErr LampState :=
  if s.conn ≠ Conn.UNPAIRED ∨ s.client = none then .ok s
  else .ok s

/-- Observable result of one `connect` call: the final state, the sequence of
values assigned to `self._conn` during the call, and the `max_attempts`
argument of each establish_connection invocation made. -/
structure ConnectResult where
  state : LampState
  connTrace : List Conn
  establishAttempts : List Nat
deriving DecidableEq, BEq, Repr

/-- Model of `Lamp.connect(num_tries=3)` (hello_fairy.py lines 83-139):
stale-handle check, PAIRING/PAIRED reentrancy guard, then inside try:
disconnect any existing client, establish_connection with hardcoded
`max_attempts=4`, set Conn.UNPAIRED, `pair()`, fixed sleep, set Conn.PAIRED,
`get_state()` (a no-op placeholder) and observer callbacks; asyncio.Timeout
and BleakError from establish_connection are caught and logged.  The
`.error` arms after `disconnect`/`pair` are unreachable since both always
return `.ok`. -/
def connect (env : Env) (num_tries : Int) (s : LampState) :
    Except RadioErr ConnectResult :=
  let stale : Bool :=
    match s.client with
    | some c => !c.is_connected
    | none => false
  let t0 : List Conn := if stale then disconnectAssigns s else []
  match (if stale then disconnect env s else .ok s : Except RadioErr LampState) with
  | .error e => .error e
  | .ok s1 =>
    if s1.conn = Conn.PAIRING ∨ s1.conn = Conn.PAIRED then
      .ok ⟨s1, t0, []⟩
    else
      match (if s1.client.isSome then disconnect env s1 else .ok s1 :
          Except RadioErr LampState) with
      | .error e => .error e
      | .ok s2 =>
        let t1 : List Conn :=
          t0 ++ (if s1.client.isSome then disconnectAssigns s1 else [])
        match establish_connection env 4 with
        | .error _ => .ok ⟨s2, t1, [4]⟩
        | .ok cl =>
          match pair { s2 with client := some cl, conn := Conn.UNPAIRED } with
          | .error e => .error e
          | .ok s4 =>
            .ok ⟨{ s4 with conn := Conn.PAIRED },
              t1 ++ [Conn.UNPAIRED, Conn.PAIRED], [4]⟩

/-- Observable result of a send/intent call: final state, the byte strings
passed to write_gatt_char, the connection-state trace of the implicit
`connect`, and the boolean `send_cmd` result (`turn_on`/`turn_off` discard it
in the source; it is kept observable here). -/
structure SendResult where
  state : LampState
  frames : List (List Nat)
  connTrace : List Conn
  ret : Bool
deriving DecidableEq, BEq, Repr

/-- Model of `Lamp.send_cmd(bits, wait_notif=0.5)`: awaits `connect()`
(outside any try), then if Conn.PAIRED with a client writes the frame and
sleeps, returning True; asyncio.TimeoutError and BleakError from the write
are caught and fall through to `return False`. -/
def send_cmd (env : Env) (bits : List Nat) (wait_notif : ℚ) (s : LampState) :
    Except RadioErr SendResult :=
  match wait_notif, connect env 3 s with
  | _, .error e => .error e
  | _, .ok c =>
    if c.state.conn = Conn.PAIRED ∧ c.state.client.isSome then
      match env.write.toExcept with
      | .ok _ => .ok ⟨c.state, [bits], c.connTrace, true⟩
      | .error _ => .ok ⟨c.state, [bits], c.connTrace, false⟩
    else
      .ok ⟨c.state, [], c.connTrace, false⟩

/-- bytes.fromhex("aa020101bb"), built inside `Lamp.turn_on`. -/
def powerOnFrame : List Nat := [0xaa, 0x02, 0x01, 0x01, 0xbb]

/-- bytes.fromhex("aa020100bb"), built inside `Lamp.turn_off`. -/
def powerOffFrame : List Nat := [0xaa, 0x02, 0x01, 0x00, 0xbb]

/-- bytes.fromhex("aa030701001403e8038cbb"), the constant frame built inside
both `Lamp.set_brightness` and `Lamp.set_color`. -/
def brightnessColorFrame : List Nat :=
  [0xaa, 0x03, 0x07, 0x01, 0x00, 0x14, 0x03, 0xe8, 0x03, 0x8c, 0xbb]

/-- Model of `Lamp.turn_on`: send the fixed power-on frame with the default
wait_notif of 0.5; the source does not inspect the result and does not touch
`self._is_on`. -/
def turn_on (env : Env) (s : LampState) : Except RadioErr SendResult :=
  send_cmd env powerOnFrame (1 / 2 : ℚ) s

/-- Model of `Lamp.turn_off`: send the fixed power-off frame with the default
wait_notif of 0.5; the source does not inspect the result and does not touch
`self._is_on`. -/
def turn_off (env : Env) (s : LampState) : Except RadioErr SendResult :=
  send_cmd env powerOffFrame (1 / 2 : ℚ) s

/-- Model of `Lamp.set_brightness(brightness)`: clamp with
`min(100, max(0, int(brightness)))`, send the constant brightness/color frame
with wait_notif=0, and update the cached brightness only when send_cmd
returned True. -/
def set_brightness (env : Env) (brightness : Int) (s : LampState) :
    Except RadioErr SendResult :=
  let b := min 100 (max 0 brightness)
  match send_cmd env brightnessColorFrame 0 s with
  | .error e => .error e
  | .ok r =>
    if r.ret then .ok { r with state := { r.state with brightness := b } }
    else .ok r

/-- Model of `Lamp.set_color(red, green, blue, brightness=None)`: default the
brightness to the cached value, send the constant brightness/color frame with
wait_notif=0, and update the cached rgb and brightness only when send_cmd
returned True (no clamping in the source). -/
def set_color (env : Env) (red green blue : Int) (brightness : Option Int)
    (s : LampState) : Except RadioErr SendResult :=
  let b := brightness.getD s.brightness
  match send_cmd env brightnessColorFrame 0 s with
  | .error e => .error e
  | .ok r =>
    if r.ret then
      .ok { r with state := { r.state with rgb := (red, green, blue), brightness := b } }
    else .ok r

/-- Model of the `Lamp.available` property: `self._conn == Conn.PAIRED`. -/
def available (s : LampState) : Bool := s.conn == Conn.PAIRED

/-- Model of `Lamp.diconnected_cb` (source spelling): the out-of-band
link-drop callback sets Conn.DISCONNECTED and fires the observers. -/
def diconnected_cb (s : LampState) : LampState :=
  { s with conn := Conn.DISCONNECTED }

/-- Model of `Lamp.get_state`: every command in the body is commented out. -/
def get_state (s : LampState) : Except RadioErr LampState := .ok s

/-- An environment in which every radio operation succeeds. -/
def envOk : Env := ⟨RadioOutcome.ok, RadioOutcome.ok, RadioOutcome.ok⟩

/-- The state a `disconnect` call leaves behind (proven in `disconnect_eq`). -/
def disconnectState (s : LampState) : LampState :=
  match s.client with
  | none => s
  | some _ => { s with conn := Conn.DISCONNECTED }

/-- Derived total-run characterization of `connect` (proven equal to it in
`connect_eq`); used only to structure proofs. -/
def connectRun (env : Env) (s : LampState) : ConnectResult :=
  let stale : Bool :=
    match s.client with
    | some c => !c.is_connected
    | none => false
  let t0 : List Conn := if stale then disconnectAssigns s else []
  let s1 := if stale then disconnectState s else s
  if s1.conn = Conn.PAIRING ∨ s1.conn = Conn.PAIRED then ⟨s1, t0, []⟩
  else
    let s2 := if s1.client.isSome then disconnectState s1 else s1
    let t1 := t0 ++ (if s1.client.isSome then disconnectAssigns s1 else [])
    match env.establish with
    | RadioOutcome.ok =>
      ⟨{ s2 with client := some ⟨true⟩, conn := Conn.PAIRED },
        t1 ++ [Conn.UNPAIRED, Conn.PAIRED], [4]⟩
    | _ => ⟨s2, t1, [4]⟩

/-- Derived total-run characterization of `send_cmd` (proven equal to it in
`send_cmd_eq`); used only to structure proofs. -/
def sendRun (env : Env) (bits : List Nat) (s : LampState) : SendResult :=
  if (connectRun env s).state.conn = Conn.PAIRED ∧
      (connectRun env s).state.client.isSome then
    ⟨(connectRun env s).state, [bits], (connectRun env s).connTrace,
      env.write == RadioOutcome.ok⟩
  else
    ⟨(connectRun env s).state, [], (connectRun env s).connTrace, false⟩

/-- The stale-handle check of `connect` does not fire: either no client, or a
still-connected one. -/
def handleLive (s : LampState) : Bool :=
  match s.client with
  | some c => c.is_connected
  | none => true

/-- A session that has connected successfully: live client, Conn.PAIRED. -/
def pairedLamp : LampState :=
  { initLamp with client := some ⟨true⟩, conn := Conn.PAIRED }

/-- The `establishAttempts` list of a `connect` call (empty if it raised). -/
def connectAttempts (env : Env) (n : Int) (s : LampState) : List Nat :=
  match connect env n s with
  | Except.ok r => r.establishAttempts
  | Except.error _ => []

/-- The boolean send_cmd result inside a `turn_on` call (False if it raised). -/
def turnOnRet (env : Env) (s : LampState) : Bool :=
  match turn_on env s with
  | Except.ok r => r.ret
  | Except.error _ => false

/-- The cached `is_on` after a `turn_on` call (unchanged if it raised). -/
def turnOnIsOn (env : Env) (s : LampState) : Bool :=
  match turn_on env s with
  | Except.ok r => r.state.is_on
  | Except.error _ => s.is_on

/-- The connection state after a `turn_on` call (unchanged if it raised). -/
def turnOnConn (env : Env) (s : LampState) : Conn :=
  match turn_on env s with
  | Except.ok r => r.state.conn
  | Except.error _ => s.conn

/-- The `self._conn` assignment sequence of a `turn_on` call. -/
def turnOnTrace (env : Env) (s : LampState) : List Conn :=
  match turn_on env s with
  | Except.ok r => r.connTrace
  | Except.error _ => []

/-- The boolean send_cmd result inside a `set_brightness` call. -/
def setBrightnessRet (env : Env) (b : Int) (s : LampState) : Bool :=
  match set_brightness env b s with
  | Except.ok r => r.ret
  | Except.error _ => false

/-- The cached brightness after a `set_brightness` call. -/
def setBrightnessCached (env : Env) (b : Int) (s : LampState) : Int :=
  match set_brightness env b s with
  | Except.ok r => r.state.brightness
  | Except.error _ => s.brightness

/-- Handle invariant: away from DISCONNECTED the session has a client. -/
def ClientInv (s : LampState) : Prop :=
  s.conn = Conn.DISCONNECTED ∨ s.client.isSome = true

/-- States of one `Lamp` reachable from `__init__` by the session's own
operations, each step under an arbitrary radio environment. -/
inductive Reachable : LampState → Prop where
  | init : Reachable initLamp
  | step_disconnect : ∀ env s s1, Reachable s →
      disconnect env s = Except.ok s1 → Reachable s1
  | step_pair : ∀ s s1, Reachable s → pair s = Except.ok s1 → Reachable s1
  | step_connect : ∀ env n s r, Reachable s →
      connect env n s = Except.ok r → Reachable r.state
  | step_send_cmd : ∀ env bits w s r, Reachable s →
      send_cmd env bits w s = Except.ok r → Reachable r.state
  | step_turn_on : ∀ env s r, Reachable s →
      turn_on env s = Except.ok r → Reachable r.state
  | step_turn_off : ∀ env s r, Reachable s →
      turn_off env s = Except.ok r → Reachable r.state
  | step_set_brightness : ∀ env b s r, Reachable s →
      set_brightness env b s = Except.ok r → Reachable r.state
  | step_set_color : ∀ env red green blue obr s r, Reachable s →
      set_color env red green blue obr s = Except.ok r → Reachable r.state
  | step_cb : ∀ s, Reachable s → Reachable (diconnected_cb s)

/-- A `pair` call never raises and never changes the state. -/
lemma pair_eq (s : LampState) : pair s = Except.ok s := by
  unfold pair
  exact ite_self _

/-- A `disconnect` call never raises and results in `disconnectState`. -/
lemma disconnect_eq (env : Env) (s : LampState) :
    disconnect env s = Except.ok (disconnectState s) := by
  cases h : s.client <;> cases henv : env.clientDisconnect <;>
    simp [disconnect, disconnectState, RadioOutcome.toExcept, h, henv]

/-- A `connect` call never raises, ignores `num_tries`, and results in
`connectRun`. -/
lemma connect_eq (env : Env) (n : Int) (s : LampState) :
    connect env n s = Except.ok (connectRun env s) := by
  obtain ⟨cl, io, rgbv, br, cn⟩ := s
  obtain ⟨ee, ew, ed⟩ := env
  cases cl with
  | none => cases cn <;> cases ee <;> cases ed <;> rfl
  | some c =>
    obtain ⟨b⟩ := c
    cases b <;> cases cn <;> cases ee <;> cases ed <;> rfl

/-- A `send_cmd` call never raises and results in `sendRun`; the wait time is
behaviourally irrelevant. -/
lemma send_cmd_eq (env : Env) (bits : List Nat) (w : ℚ) (s : LampState) :
    send_cmd env bits w s = Except.ok (sendRun env bits s) := by
  unfold send_cmd sendRun
  rw [connect_eq env 3 s]
  cases hw : env.write <;>
    simp [RadioOutcome.toExcept, hw] <;> split <;> rfl

/-- A `turn_on` call never raises and results in sending the power-on frame. -/
lemma turn_on_eq (env : Env) (s : LampState) :
    turn_on env s = Except.ok (sendRun env powerOnFrame s) := by
  unfold turn_on
  exact send_cmd_eq env powerOnFrame (1 / 2 : ℚ) s

/-- A `turn_off` call never raises and results in sending the power-off frame. -/
lemma turn_off_eq (env : Env) (s : LampState) :
    turn_off env s = Except.ok (sendRun env powerOffFrame s) := by
  unfold turn_off
  exact send_cmd_eq env powerOffFrame (1 / 2 : ℚ) s

/-- A `set_brightness` call never raises; it sends the constant frame and on
success caches the clamped brightness. -/
lemma set_brightness_eq (env : Env) (b : Int) (s : LampState) :
    set_brightness env b s = Except.ok
      (if (sendRun env brightnessColorFrame s).ret then
        { sendRun env brightnessColorFrame s with
          state := { (sendRun env brightnessColorFrame s).state with
            brightness := min 100 (max 0 b) } }
       else sendRun env brightnessColorFrame s) := by
  unfold set_brightness
  rw [send_cmd_eq env brightnessColorFrame 0 s]
  cases hr : (sendRun env brightnessColorFrame s).ret <;> simp [hr]

/-- A `set_color` call never raises; it sends the constant frame and on
success caches the rgb triple and the (defaulted) brightness. -/
lemma set_color_eq (env : Env) (red green blue : Int) (obr : Option Int)
    (s : LampState) :
    set_color env red green blue obr s = Except.ok
      (if (sendRun env brightnessColorFrame s).ret then
        { sendRun env brightnessColorFrame s with
          state := { (sendRun env brightnessColorFrame s).state with
            rgb := (red, green, blue), brightness := obr.getD s.brightness } }
       else sendRun env brightnessColorFrame s) := by
  unfold set_color
  rw [send_cmd_eq env brightnessColorFrame 0 s]
  cases hr : (sendRun env brightnessColorFrame s).ret <;> simp [hr]

lemma clientInv_disconnectState (s : LampState) (h : ClientInv s) :
    ClientInv (disconnectState s) := by
  unfold disconnectState
  cases hc : s.client with
  | none => simpa [hc] using h
  | some c => left; rfl

lemma clientInv_connectRun (env : Env) (s : LampState) (h : ClientInv s) :
    ClientInv (connectRun env s).state := by
  unfold connectRun
  obtain ⟨cl, io, rgbv, br, cn⟩ := s
  cases cl with
  | none =>
    cases cn <;> cases he : env.establish <;>
      first
        | (right; rfl)
        | (left; rfl)
        | exact h
  | some c =>
    obtain ⟨b⟩ := c
    cases b <;> cases cn <;> cases he : env.establish <;>
      first
        | (right; rfl)
        | (left; rfl)
        | exact h

lemma clientInv_sendRun (env : Env) (bits : List Nat) (s : LampState)
    (h : ClientInv s) : ClientInv (sendRun env bits s).state := by
  unfold sendRun
  split <;> exact clientInv_connectRun env s h

/-- Every reachable state satisfies the handle invariant. -/
lemma reachable_clientInv (s : LampState) (h : Reachable s) : ClientInv s := by
  induction h with
  | init => left; rfl
  | step_disconnect env s s1 _ heq ih =>
    rw [disconnect_eq] at heq
    cases heq
    exact clientInv_disconnectState s ih
  | step_pair s s1 _ heq ih =>
    rw [pair_eq] at heq
    cases heq
    exact ih
  | step_connect env n s r _ heq ih =>
    rw [connect_eq] at heq
    cases heq
    exact clientInv_connectRun env s ih
  | step_send_cmd env bits w s r _ heq ih =>
    rw [send_cmd_eq] at heq
    cases heq
    exact clientInv_sendRun env bits s ih
  | step_turn_on env s r _ heq ih =>
    rw [turn_on_eq] at heq
    cases heq
    exact clientInv_sendRun env powerOnFrame s ih
  | step_turn_off env s r _ heq ih =>
    rw [turn_off_eq] at heq
    cases heq
    exact clientInv_sendRun env powerOffFrame s ih
  | step_set_brightness env b s r _ heq ih =>
    rw [set_brightness_eq] at heq
    cases heq
    have hs := clientInv_sendRun env brightnessColorFrame s ih
    split <;> exact hs
  | step_set_color env red green blue obr s r _ heq ih =>
    rw [set_color_eq] at heq
    cases heq
    have hs := clientInv_sendRun env brightnessColorFrame s ih
    split <;> exact hs
  | step_cb s _ _ => left; rfl

/-- Whenever `send_cmd` writes, it writes exactly the frame it was given. -/
lemma sendRun_frames (env : Env) (bits : List Nat) (s : LampState) :
    (sendRun env bits s).frames = [] ∨ (sendRun env bits s).frames = [bits] := by
  unfold sendRun
  split
  · right; rfl
  · left; rfl

/-- A `connect` call never changes the cached power state. -/
lemma connectRun_is_on (env : Env) (s : LampState) :
    (connectRun env s).state.is_on = s.is_on := by
  obtain ⟨cl, io, rgbv, br, cn⟩ := s
  obtain ⟨ee, ew, ed⟩ := env
  cases cl with
  | none => cases cn <;> cases ee <;> rfl
  | some c =>
    obtain ⟨b⟩ := c
    cases b <;> cases cn <;> cases ee <;> rfl

/-- A `send_cmd` call never changes the cached power state. -/
lemma sendRun_is_on (env : Env) (bits : List Nat) (s : LampState) :
    (sendRun env bits s).state.is_on = s.is_on := by
  unfold sendRun
  split <;> exact connectRun_is_on env s

/-- A `connect` call never changes the cached brightness. -/
lemma connectRun_brightness (env : Env) (s : LampState) :
    (connectRun env s).state.brightness = s.brightness := by
  obtain ⟨cl, io, rgbv, br, cn⟩ := s
  obtain ⟨ee, ew, ed⟩ := env
  cases cl with
  | none => cases cn <;> cases ee <;> rfl
  | some c =>
    obtain ⟨b⟩ := c
    cases b <;> cases cn <;> cases ee <;> rfl

/-- A `send_cmd` call never changes the cached brightness. -/
lemma sendRun_brightness (env : Env) (bits : List Nat) (s : LampState) :
    (sendRun env bits s).state.brightness = s.brightness := by
  unfold sendRun
  split <;> exact connectRun_brightness env s

/-- Each `connect` call invokes establish_connection at most once, always with
`max_attempts = 4`. -/
lemma connectRun_attempts (env : Env) (s : LampState) :
    (connectRun env s).establishAttempts = [] ∨
    (connectRun env s).establishAttempts = [4] := by
  obtain ⟨cl, io, rgbv, br, cn⟩ := s
  obtain ⟨ee, ew, ed⟩ := env
  cases cl with
  | none =>
    cases cn <;> cases ee <;> first | (left; rfl) | (right; rfl)
  | some c =>
    obtain ⟨b⟩ := c
    cases b <;> cases cn <;> cases ee <;> first | (left; rfl) | (right; rfl)

/-- When the reentrancy guard applies (Conn.PAIRING or Conn.PAIRED with a
live handle), `connect` is a complete no-op. -/
lemma connectRun_guard (env : Env) (s : LampState)
    (hconn : s.conn = Conn.PAIRING ∨ s.conn = Conn.PAIRED)
    (hlive : handleLive s = true) :
    connectRun env s = ⟨s, [], []⟩ := by
  obtain ⟨cl, io, rgbv, br, cn⟩ := s
  cases cl with
  | none =>
    cases cn <;> first
      | rfl
      | (rcases hconn with h | h <;> cases h)
  | some c =>
    obtain ⟨b⟩ := c
    cases b with
    | false => simp [handleLive] at hlive
    | true =>
      cases cn <;> first
        | rfl
        | (rcases hconn with h | h <;> cases h)

/-- A `connect` call with a successful establishment, outside the guard,
reaches Conn.PAIRED with a live client and one establish invocation. -/
lemma connectRun_success (env : Env) (s : LampState)
    (he : env.establish = RadioOutcome.ok)
    (h1 : s.conn ≠ Conn.PAIRING) (h2 : s.conn ≠ Conn.PAIRED) :
    (connectRun env s).state.conn = Conn.PAIRED ∧
    (connectRun env s).state.client = some ⟨true⟩ ∧
    (connectRun env s).establishAttempts = [4] := by
  obtain ⟨cl, io, rgbv, br, cn⟩ := s
  cases cl with
  | none =>
    cases cn <;> first
      | (exact absurd rfl h1)
      | (exact absurd rfl h2)
      | (refine ⟨?_, ?_, ?_⟩ <;> simp [connectRun, he])
  | some c =>
    obtain ⟨b⟩ := c
    cases b <;> cases cn <;> first
      | (exact absurd rfl h1)
      | (exact absurd rfl h2)
      | (refine ⟨?_, ?_, ?_⟩ <;> simp [connectRun, he, disconnectState])

/-- A state after `disconnectState` with the handle invariant is always at
Conn.DISCONNECTED. -/
lemma disconnectState_conn (s : LampState) (h : ClientInv s) :
    (disconnectState s).conn = Conn.DISCONNECTED := by
  unfold disconnectState
  cases hc : s.client with
  | none =>
    rcases h with h | h
    · exact h
    · rw [hc] at h
      cases h
  | some c => rfl

/-- C1: for every input to set_brightness and set_color, any frame written to
the radio link is the constant byte sequence aa030701001403e8038cbb,
independent of the requested brightness and colour values, and of length 11. -/
theorem C1_brightness_color_frame_constant (env : Env) (b red green blue : Int)
    (obr : Option Int) (s : LampState) :
    (∃ r, set_brightness env b s = Except.ok r ∧
      (r.frames = [] ∨ r.frames = [brightnessColorFrame])) ∧
    (∃ r, set_color env red green blue obr s = Except.ok r ∧
      (r.frames = [] ∨ r.frames = [brightnessColorFrame])) ∧
    brightnessColorFrame =
      [0xaa, 0x03, 0x07, 0x01, 0x00, 0x14, 0x03, 0xe8, 0x03, 0x8c, 0xbb] ∧
    brightnessColorFrame.length = 11 := by
  refine ⟨⟨_, set_brightness_eq env b s, ?_⟩,
    ⟨_, set_color_eq env red green blue obr s, ?_⟩, rfl, rfl⟩ <;>
    cases hr : (sendRun env brightnessColorFrame s).ret <;>
      simpa [hr] using sendRun_frames env brightnessColorFrame s

/-- C2 (counterexample): with every radio operation succeeding, the intent
turn_on from the freshly initialized (Disconnected) session ends Paired, and
the sequence of connection states assigned on the way is
[UNPAIRED, PAIRED]: Conn.PAIRING is never entered, so the transition from
Unpaired to Paired happens without the state first being Pairing. -/
theorem C2_counterexample :
    turnOnConn envOk initLamp = Conn.PAIRED ∧
    turnOnTrace envOk initLamp = [Conn.UNPAIRED, Conn.PAIRED] ∧
    (turnOnTrace envOk initLamp).contains Conn.PAIRING = false :=
  ⟨rfl, rfl, rfl⟩

/-- C2 (amended): starting from the freshly initialized Disconnected session,
any intent call drives the state through Unpaired and then directly to Paired
(the Pairing state is never assigned), or leaves it Disconnected on link
failure. -/
theorem C2_state_progression (env : Env) (bits : List Nat) (w : ℚ) :
    ∃ r, send_cmd env bits w initLamp = Except.ok r ∧
      r.connTrace = (match env.establish with
        | RadioOutcome.ok => [Conn.UNPAIRED, Conn.PAIRED]
        | RadioOutcome.timeout => []
        | RadioOutcome.bleakError => []) ∧
      r.state.conn = (match env.establish with
        | RadioOutcome.ok => Conn.PAIRED
        | RadioOutcome.timeout => Conn.DISCONNECTED
        | RadioOutcome.bleakError => Conn.DISCONNECTED) ∧
      r.connTrace.contains Conn.PAIRING = false := by
  refine ⟨sendRun env bits initLamp, send_cmd_eq env bits w initLamp,
    ?_, ?_, ?_⟩ <;>
    obtain ⟨ee, ew, ed⟩ := env <;>
      cases ee <;> cases ew <;> rfl

/-- C3: turn_on only ever writes the 5-byte frame aa020101bb and turn_off
only ever writes the 5-byte frame aa020100bb; no other power frame is ever
produced. -/
theorem C3_power_frames (env : Env) (s : LampState) :
    (∃ r, turn_on env s = Except.ok r ∧
      (r.frames = [] ∨ r.frames = [powerOnFrame])) ∧
    (∃ r, turn_off env s = Except.ok r ∧
      (r.frames = [] ∨ r.frames = [powerOffFrame])) ∧
    powerOnFrame = [0xaa, 0x02, 0x01, 0x01, 0xbb] ∧
    powerOffFrame = [0xaa, 0x02, 0x01, 0x00, 0xbb] ∧
    powerOnFrame.length = 5 ∧ powerOffFrame.length = 5 :=
  ⟨⟨_, turn_on_eq env s, sendRun_frames env powerOnFrame s⟩,
   ⟨_, turn_off_eq env s, sendRun_frames env powerOffFrame s⟩,
   rfl, rfl, rfl, rfl⟩

/-- C4 (counterexample): with every radio operation succeeding, a turn_on
call from the freshly initialized session has its frame write succeed
(send_cmd returns True), yet the cached is_on field is still false: the
source never updates `self._is_on` in turn_on or turn_off. -/
theorem C4_counterexample :
    turnOnRet envOk initLamp = true ∧ turnOnIsOn envOk initLamp = false :=
  ⟨rfl, rfl⟩

/-- C4 (amended): turn_on and turn_off never change the cached is_on field,
whether or not the frame write succeeds. -/
theorem C4_power_cache_unchanged (env : Env) (s : LampState) :
    (∃ r, turn_on env s = Except.ok r ∧ r.state.is_on = s.is_on) ∧
    (∃ r, turn_off env s = Except.ok r ∧ r.state.is_on = s.is_on) :=
  ⟨⟨_, turn_on_eq env s, sendRun_is_on env powerOnFrame s⟩,
   ⟨_, turn_off_eq env s, sendRun_is_on env powerOffFrame s⟩⟩

/-- C5: for every frame, wait time and reachable state, send_cmd returns a
boolean (never propagates a radio-level exception): True exactly when the
session reaches Paired and the write completes, False otherwise. -/
theorem C5_send_cmd_no_exception (env : Env) (bits : List Nat) (w : ℚ)
    (s : LampState) (hs : Reachable s) :
    ∃ r, send_cmd env bits w s = Except.ok r ∧
      r.ret = ((r.state.conn == Conn.PAIRED) && (env.write == RadioOutcome.ok)) := by
  refine ⟨sendRun env bits s, send_cmd_eq env bits w s, ?_⟩
  have hinv := clientInv_connectRun env s (reachable_clientInv s hs)
  unfold sendRun
  split
  · next h =>
    rw [h.1]
    rfl
  · next h =>
    rcases hinv with hd | hsome
    · have hb : ((connectRun env s).state.conn == Conn.PAIRED) = false := by
        rw [hd]; rfl
      rw [hb]
      rfl
    · have hnp : (connectRun env s).state.conn ≠ Conn.PAIRED := fun hp =>
        h ⟨hp, hsome⟩
      have hb : ((connectRun env s).state.conn == Conn.PAIRED) = false := by
        cases hcn : (connectRun env s).state.conn <;> first
          | rfl
          | (exact absurd hcn hnp)
      rw [hb]
      rfl

/-- C5 witness: a successful send from the initial state. -/
theorem C5_witness :
    ∃ r, send_cmd envOk powerOnFrame (1 / 2 : ℚ) initLamp = Except.ok r ∧
      r.ret = ((r.state.conn == Conn.PAIRED) && (envOk.write == RadioOutcome.ok)) :=
  C5_send_cmd_no_exception envOk powerOnFrame (1 / 2 : ℚ) initLamp Reachable.init

/-- C6 (counterexample): a connect call passing 3 as the attempt-count
argument invokes the radio-level connect with max_attempts = 4, which exceeds
3: the claim "at most N attempts for every N" fails at N = 3 (the source
ignores num_tries and hardcodes max_attempts=4). -/
theorem C6_counterexample :
    connectAttempts envOk 3 initLamp = [4] ∧
    (connectAttempts envOk 3 initLamp).all (fun a => Nat.ble a 3) = false :=
  ⟨rfl, rfl⟩

/-- C6 (amended): connect ignores its attempt-count argument entirely: its
behaviour is the same for every value passed, and the radio-level connect is
invoked at most once per call, always with max_attempts = 4. -/
theorem C6_connect_ignores_num_tries (env : Env) (n m : Int) (s : LampState) :
    connect env n s = connect env m s ∧
    (connectAttempts env n s = [] ∨ connectAttempts env n s = [4]) := by
  constructor
  · rfl
  · unfold connectAttempts
    rw [connect_eq]
    exact connectRun_attempts env s

/-- C7: from any reachable session state, calling disconnect twice in a row
never raises, and after each of the two calls the connection state is
Disconnected. -/
theorem C7_disconnect_idempotent (env1 env2 : Env) (s : LampState)
    (hs : Reachable s) :
    ∃ s1 s2, disconnect env1 s = Except.ok s1 ∧ s1.conn = Conn.DISCONNECTED ∧
      disconnect env2 s1 = Except.ok s2 ∧ s2.conn = Conn.DISCONNECTED := by
  have hinv := reachable_clientInv s hs
  exact ⟨disconnectState s, disconnectState (disconnectState s),
    disconnect_eq env1 s, disconnectState_conn s hinv,
    disconnect_eq env2 (disconnectState s),
    disconnectState_conn (disconnectState s) (clientInv_disconnectState s hinv)⟩

/-- C7 witness: double disconnect from the initial state. -/
theorem C7_witness :
    ∃ s1 s2, disconnect envOk initLamp = Except.ok s1 ∧
      s1.conn = Conn.DISCONNECTED ∧
      disconnect envOk s1 = Except.ok s2 ∧ s2.conn = Conn.DISCONNECTED :=
  C7_disconnect_idempotent envOk envOk initLamp Reachable.init

/-- C8: if the state is Pairing or Paired with a live handle, connect makes
no radio-level connection and changes nothing; and across two consecutive
connect calls (the first establishing successfully from outside the guard,
with no intervening disconnect) the radio-level connect is invoked exactly
once. -/
theorem C8_connect_reentrancy_guard (env1 env2 : Env) (n1 n2 : Int)
    (s : LampState) :
    ((s.conn = Conn.PAIRING ∨ s.conn = Conn.PAIRED) → handleLive s = true →
      connect env1 n1 s = Except.ok ⟨s, [], []⟩) ∧
    (env1.establish = RadioOutcome.ok → s.conn ≠ Conn.PAIRING →
      s.conn ≠ Conn.PAIRED →
      ∃ r1 r2, connect env1 n1 s = Except.ok r1 ∧
        connect env2 n2 r1.state = Except.ok r2 ∧
        r1.establishAttempts = [4] ∧ r2.establishAttempts = [] ∧
        r2.state = r1.state) := by
  constructor
  · intro hconn hlive
    rw [connect_eq, connectRun_guard env1 s hconn hlive]
  · intro he h1 h2
    obtain ⟨hc, hcl, hat⟩ := connectRun_success env1 s he h1 h2
    have hlive2 : handleLive (connectRun env1 s).state = true := by
      unfold handleLive
      rw [hcl]
    have hguard := connectRun_guard env2 (connectRun env1 s).state
      (Or.inr hc) hlive2
    refine ⟨connectRun env1 s, connectRun env2 (connectRun env1 s).state,
      connect_eq env1 n1 s, connect_eq env2 n2 _, hat, ?_, ?_⟩
    · rw [hguard]
    · rw [hguard]

/-- C8 witness: guard no-op on a paired session, and a single establishment
across two consecutive connects from the initial state. -/
theorem C8_witness :
    connect envOk 3 pairedLamp = Except.ok ⟨pairedLamp, [], []⟩ ∧
    (∃ r1 r2, connect envOk 3 initLamp = Except.ok r1 ∧
      connect envOk 3 r1.state = Except.ok r2 ∧
      r1.establishAttempts = [4] ∧ r2.establishAttempts = [] ∧
      r2.state = r1.state) :=
  ⟨(C8_connect_reentrancy_guard envOk envOk 3 3 pairedLamp).1 (Or.inr rfl) rfl,
   (C8_connect_reentrancy_guard envOk envOk 3 3 initLamp).2 rfl
     (by decide) (by decide)⟩

/-- C9: set_brightness clamps its argument to 0..100 before caching: on a
successful send the cached value is min(100, max(0, b)), otherwise it is
unchanged; concretely 150 caches as 100 and -5 caches as 0. -/
theorem C9_set_brightness_clamps (env : Env) (b : Int) (s : LampState) :
    (∃ r, set_brightness env b s = Except.ok r ∧
      r.state.brightness =
        (if r.ret = true then min 100 (max 0 b) else s.brightness)) ∧
    setBrightnessRet envOk 150 initLamp = true ∧
    setBrightnessCached envOk 150 initLamp = 100 ∧
    setBrightnessRet envOk (-5) initLamp = true ∧
    setBrightnessCached envOk (-5) initLamp = 0 := by
  refine ⟨⟨_, set_brightness_eq env b s, ?_⟩, rfl, rfl, rfl, rfl⟩
  cases hr : (sendRun env brightnessColorFrame s).ret <;>
    simp [hr, sendRun_brightness env brightnessColorFrame s]

/-- C10: in every session state the available property returns true exactly
when the connection state is Paired; initially it is false. -/
theorem C10_available_iff_paired (s : LampState) :
    (available s = true ↔ s.conn = Conn.PAIRED) ∧
    available initLamp = false := by
  constructor
  · unfold available
    cases h : s.conn <;> decide
  · rfl

end HelloFairy
